import Mathlib

/-!
Verification of the mega-optimizer pipeline
(`src/bot-system/mega-optimizer/src`): a shallow embedding of the
analysis-and-optimization pipeline — tech-stack detection, analyzer
dispatch, optimization synthesis, PR submission, and the batch loop of
`main` — together with theorems settling the specified properties.

Fallible Rust functions (`anyhow::Result<T>`) are embedded as
`Except String T`; the `?` operator becomes explicit error-propagating
matches.  External capabilities (the three analyzer entry points and the
GitHub PR-creation call) are additionally abstracted as function
parameters where a property quantifies over their possible outcomes;
the concrete implementations from the source are provided as well.
-/

/-- `Severity` from `analyzers/mod.rs`. -/
inductive Severity
  | Critical
  | High
  | Medium
  | Low
deriving DecidableEq

/-- `Finding` from `analyzers/mod.rs`. -/
structure Finding where
  severity : Severity
  location : String
  description : String
  optimization : Option String
deriving DecidableEq

/-- `AnalysisResult` from `analyzers/mod.rs`. -/
structure AnalysisResult where
  category : String
  findings : List Finding
  tech_stack : String
deriving DecidableEq

/-- `TechStack` from `analyzers/mod.rs`. -/
structure TechStack where
  has_rust : Bool
  has_python : Bool
  has_javascript : Bool
  has_docker : Bool
  has_kubernetes : Bool
deriving DecidableEq

/-- `detect_tech_stack` from `analyzers/mod.rs` (lines 41-51): ignores its
arguments and returns a fixed comprehensive stack. -/
def detect_tech_stack (_owner _repo : String) : Except String TechStack :=
  .ok { has_rust := false
        has_python := true
        has_javascript := true
        has_docker := true
        has_kubernetes := true }

namespace rust_analyzer

/-- `analyzers/rust_analyzer.rs::analyze`: always succeeds with three fixed
findings. -/
def analyze (_owner _repo : String) : Except String AnalysisResult :=
  .ok { category := "Rust Performance"
        findings :=
          [ { severity := Severity.High
              location := "Cargo.toml"
              description := "Missing LTO (Link Time Optimization) in release profile"
              optimization := some "Add lto = true in [profile.release]" }
          , { severity := Severity.Medium
              location := "src/**/*.rs"
              description := "Consider using SIMD vectorization for parallel operations"
              optimization := some "Use std::simd or external crates like packed_simd" }
          , { severity := Severity.Medium
              location := "src/**/*.rs"
              description := "Potential for zero-copy deserialization"
              optimization := some "Use serde_zero_copy for large data structures" } ]
        tech_stack := "rust" }

end rust_analyzer

namespace python_analyzer

/-- `analyzers/python_analyzer.rs::analyze`: always succeeds with six fixed
findings. -/
def analyze (_owner _repo : String) : Except String AnalysisResult :=
  .ok { category := "Python/AI Performance"
        findings :=
          [ { severity := Severity.High
              location := "services/*/main.py"
              description := "Single-worker Uvicorn detected - should use multi-worker setup"
              optimization := some "Use uvicorn with workers=4, loop=\x27uvloop\x27, http=\x27httptools\x27" }
          , { severity := Severity.High
              location := "services/*/main.py"
              description := "Missing ORJSONResponse for faster JSON serialization"
              optimization := some "Use ORJSONResponse instead of default JSONResponse" }
          , { severity := Severity.High
              location := "services/image-generation/main.py"
              description := "Missing model quantization for faster inference"
              optimization := some "Apply INT8 quantization and JIT compilation to PyTorch models" }
          , { severity := Severity.Medium
              location := "services/*/main.py"
              description := "Synchronous I/O operations detected"
              optimization := some "Replace with async/await using aiohttp and asyncio" }
          , { severity := Severity.Medium
              location := "services/*/main.py"
              description := "Missing connection pooling for databases"
              optimization := some "Implement connection pooling with pool_size=20, max_overflow=10" }
          , { severity := Severity.Medium
              location := "services/image-generation/main.py"
              description := "Missing batch inference capability"
              optimization := some "Implement batch inference engine for parallel processing" } ]
        tech_stack := "python" }

end python_analyzer

namespace docker_analyzer

/-- `analyzers/docker_analyzer.rs::analyze`: always succeeds with three
fixed findings. -/
def analyze (_owner _repo : String) : Except String AnalysisResult :=
  .ok { category := "Docker Optimization"
        findings :=
          [ { severity := Severity.Critical
              location := "services/*/Dockerfile"
              description := "Single-stage Dockerfile detected - inefficient image size"
              optimization := some "Use multi-stage builds to reduce image size by 70%+" }
          , { severity := Severity.High
              location := "services/*/Dockerfile"
              description := "Using heavy base image (python:3.11-slim)"
              optimization := some "Switch to Alpine-based images for smaller footprint" }
          , { severity := Severity.Medium
              location := "services/*/Dockerfile"
              description := "Missing layer caching optimization"
              optimization := some "Separate dependency installation from code copy" } ]
        tech_stack := "docker" }

end docker_analyzer

namespace dependency_analyzer

/-- `analyzers/dependency_analyzer.rs::analyze`: always succeeds with one
fixed finding.  Note: this function is declared (`pub mod
dependency_analyzer`) but never invoked anywhere in `main.rs`. -/
def analyze (_owner _repo : String) : Except String AnalysisResult :=
  .ok { category := "Dependency Management"
        findings :=
          [ { severity := Severity.Medium
              location := "services/*/requirements.txt"
              description := "Unpinned dependency versions detected"
              optimization := some "Pin all dependencies to specific versions for reproducibility" } ]
        tech_stack := "general" }

end dependency_analyzer

/-- The three analyzer entry points that `analyze_and_optimize`
(`main.rs` lines 84-106) can call, abstracted as a parameter so that the
dispatch stage's behaviour under analyzer failure can be examined; the
concrete implementations are `codeAnalyzers` below. -/
structure AnalyzerEnv where
  rustA : String → String → Except String AnalysisResult
  pythonA : String → String → Except String AnalysisResult
  dockerA : String → String → Except String AnalysisResult

/-- The analyzer implementations actually present in the source. -/
def codeAnalyzers : AnalyzerEnv :=
  { rustA := rust_analyzer.analyze
    pythonA := python_analyzer.analyze
    dockerA := docker_analyzer.analyze }

/-- One conditional step of the dispatch loop in `analyze_and_optimize`
(`main.rs` lines 86-106): if the flag is set, the analyzer's result is
pushed onto the accumulator, with `?` propagating its error. -/
def pushIf (sel : Bool) (call : Except String AnalysisResult)
    (acc : List AnalysisResult) : Except String (List AnalysisResult) :=
  if sel then
    match call with
    | .ok result => .ok (acc ++ [result])
    | .error e => .error e
  else .ok acc

/-- The analyzer-dispatch stage of `analyze_and_optimize` (`main.rs`
lines 84-106): conditionally runs the rust, python and docker analyzers
in that fixed order, pushing each result; each call is followed by `?`,
so an analyzer error aborts the whole stage. -/
def runAnalyzers (env : AnalyzerEnv) (ts : TechStack) (owner repo : String) :
    Except String (List AnalysisResult) :=
  match pushIf ts.has_rust (env.rustA owner repo) [] with
  | .error e => .error e
  | .ok acc1 =>
    match pushIf ts.has_python (env.pythonA owner repo) acc1 with
    | .error e => .error e
    | .ok acc2 =>
      match pushIf ts.has_docker (env.dockerA owner repo) acc2 with
      | .error e => .error e
      | .ok acc3 => .ok acc3

/-- The analyzer calls selected by the tech-stack flags, in the fixed
rust, python, docker order used by `analyze_and_optimize`. -/
def selectedCalls (env : AnalyzerEnv) (ts : TechStack) (owner repo : String) :
    List (Except String AnalysisResult) :=
  (if ts.has_rust then [env.rustA owner repo] else []) ++
  (if ts.has_python then [env.pythonA owner repo] else []) ++
  (if ts.has_docker then [env.dockerA owner repo] else [])

/-- Sequencing of fallible call outcomes: the first error aborts the
sequence; if all succeed, all results are returned in order. -/
def sequenceCalls : List (Except String AnalysisResult) →
    Except String (List AnalysisResult)
  | [] => .ok []
  | Except.error e :: _ => .error e
  | Except.ok res :: rest =>
    match sequenceCalls rest with
    | .ok l => .ok (res :: l)
    | .error e => .error e

/-- `ChangeType` from `optimizers/mod.rs`. -/
inductive ChangeType
  | Create
  | Modify
  | Delete
deriving DecidableEq

/-- `FileChange` from `optimizers/mod.rs`. -/
structure FileChange where
  path : String
  content : String
  change_type : ChangeType
deriving DecidableEq

/-- `ImpactLevel` from `optimizers/mod.rs`. -/
inductive ImpactLevel
  | High
  | Medium
  | Low
deriving DecidableEq

/-- `Optimization` from `optimizers/mod.rs`. -/
structure Optimization where
  category : String
  description : String
  file_changes : List FileChange
  impact : ImpactLevel
deriving DecidableEq

/-- The "FastAPI Multi-Worker" optimization built by
`optimizers/python_optimizer.rs`. -/
def fastapiMultiWorkerOpt : Optimization :=
  { category := "FastAPI Multi-Worker"
    description := "Configure Uvicorn with multiple workers and optimized event loop"
    file_changes := []
    impact := ImpactLevel.High }

/-- The "PyTorch JIT" optimization built by
`optimizers/python_optimizer.rs`. -/
def pytorchJitOpt : Optimization :=
  { category := "PyTorch JIT"
    description := "Enable JIT compilation and model quantization"
    file_changes := []
    impact := ImpactLevel.High }

/-- The "Rust LTO" optimization built by `optimizers/rust_optimizer.rs`. -/
def rustLtoOpt : Optimization :=
  { category := "Rust LTO"
    description := "Enable Link Time Optimization for better performance"
    file_changes := []
    impact := ImpactLevel.Medium }

/-- The "Redis Caching" optimization built by
`optimizers/cache_optimizer.rs`. -/
def redisCachingOpt : Optimization :=
  { category := "Redis Caching"
    description := "Add Redis caching layer for frequent queries"
    file_changes := []
    impact := ImpactLevel.High }

namespace python_optimizer

/-- `optimizers/python_optimizer.rs::generate_optimizations`: ignores its
argument and always succeeds with the two fixed Python optimizations. -/
def generate_optimizations (_result : AnalysisResult) :
    Except String (List Optimization) :=
  .ok [fastapiMultiWorkerOpt, pytorchJitOpt]

end python_optimizer

namespace rust_optimizer

/-- `optimizers/rust_optimizer.rs::generate_optimizations`: ignores its
argument and always succeeds with the fixed LTO optimization. -/
def generate_optimizations (_result : AnalysisResult) :
    Except String (List Optimization) :=
  .ok [rustLtoOpt]

end rust_optimizer

namespace gpu_optimizer

/-- `optimizers/gpu_optimizer.rs::generate_optimizations`: always succeeds
with the empty list. -/
def generate_optimizations (_result : AnalysisResult) :
    Except String (List Optimization) :=
  .ok []

end gpu_optimizer

namespace cache_optimizer

/-- `optimizers/cache_optimizer.rs::generate_redis_caching`: always
succeeds with the fixed Redis-caching optimization. -/
def generate_redis_caching : Except String (List Optimization) :=
  .ok [redisCachingOpt]

end cache_optimizer

/-- The per-result loop body of `optimizers/mod.rs::generate_optimizations`
(lines 43-56): match on the result's `tech_stack` tag — `"python"` and
`"rust"` call the corresponding optimizer (with `?` propagating its
error) and extend the accumulator; every other tag falls to the `_ => {}`
arm and contributes nothing. -/
def synthLoop (acc : List Optimization) :
    List AnalysisResult → Except String (List Optimization)
  | [] => .ok acc
  | result :: rest =>
    if result.tech_stack = "python" then
      match python_optimizer.generate_optimizations result with
      | .ok opts => synthLoop (acc ++ opts) rest
      | .error e => .error e
    else if result.tech_stack = "rust" then
      match rust_optimizer.generate_optimizations result with
      | .ok opts => synthLoop (acc ++ opts) rest
      | .error e => .error e
    else synthLoop acc rest

/-- `optimizers/mod.rs::generate_optimizations` (lines 39-63): runs the
per-result loop starting from an empty vector, then appends the
cross-cutting Redis-caching optimizations. -/
def generate_optimizations (analysis_results : List AnalysisResult) :
    Except String (List Optimization) :=
  match synthLoop [] analysis_results with
  | .error e => .error e
  | .ok optimizations =>
    match cache_optimizer.generate_redis_caching with
    | .error e => .error e
    | .ok cache_opts => .ok (optimizations ++ cache_opts)

/-- Pure characterization of the per-result synthesis rule: the list of
optimizations one `AnalysisResult` contributes, as selected by its
`tech_stack` tag. -/
def perResultPure (result : AnalysisResult) : List Optimization :=
  if result.tech_stack = "python" then [fastapiMultiWorkerOpt, pytorchJitOpt]
  else if result.tech_stack = "rust" then [rustLtoOpt]
  else []

/-- The observable behaviour of the submission stage: the returned
`Result`, the list of PR-creation calls made to the GitHub client, and
the (category, description) lines reported in dry-run mode. -/
structure SubmitOutcome where
  result : Except String Unit
  prCalls : List (String × String × List Optimization)
  reported : List (String × String)

/-- The submission stage of `analyze_and_optimize` (`main.rs` lines
110-118), with the client's `create_optimization_pr` abstracted as the
`createPR` parameter: in live mode with a non-empty optimization list it
calls `createPR` (recording the call, `?` propagating its error);
otherwise, in dry-run mode it reports each optimization's category and
description; in all remaining cases it does nothing; it always ends in
`Ok(())` when no PR call failed. -/
def submitStage (createPR : String → String → List Optimization → Except String Unit)
    (owner repo : String) (optimizations : List Optimization) (dry_run : Bool) :
    SubmitOutcome :=
  if !dry_run && !optimizations.isEmpty then
    match createPR owner repo optimizations with
    | .ok _ => { result := .ok (), prCalls := [(owner, repo, optimizations)], reported := [] }
    | .error e => { result := .error e, prCalls := [(owner, repo, optimizations)], reported := [] }
  else if dry_run then
    { result := .ok ()
      prCalls := []
      reported := optimizations.map (fun opt => (opt.category, opt.description)) }
  else
    { result := .ok (), prCalls := [], reported := [] }

/-- `github/pr_creator.rs::create_pr` (as re-exported through
`GitHubClient::create_optimization_pr`): a stub that logs and returns
`Ok(())` without contacting the provider. -/
def create_pr (_owner _repo : String) (_optimizations : List Optimization) :
    Except String Unit :=
  .ok ()

/-- `main.rs::analyze_and_optimize` (lines 68-121) for one repository:
tech-stack detection, analyzer dispatch, optimization synthesis, then the
submission stage; every stage's error (`?`) aborts the pipeline with that
error and no PR call. -/
def analyze_and_optimize (env : AnalyzerEnv)
    (createPR : String → String → List Optimization → Except String Unit)
    (owner repo : String) (dry_run : Bool) : SubmitOutcome :=
  match detect_tech_stack owner repo with
  | .error e => { result := .error e, prCalls := [], reported := [] }
  | .ok tech_stack =>
    match runAnalyzers env tech_stack owner repo with
    | .error e => { result := .error e, prCalls := [], reported := [] }
    | .ok analysis_results =>
      match generate_optimizations analysis_results with
      | .error e => { result := .error e, prCalls := [], reported := [] }
      | .ok optimizations => submitStage createPR owner repo optimizations dry_run

/-- The terminal state the batch loop of `main` records for one
repository: the `Ok` arm logs success, the `Err` arm logs failure. -/
inductive RepoOutcome
  | Succeeded
  | Failed (e : String)
deriving DecidableEq

/-- Whether a batch-report entry is a failure. -/
def RepoOutcome.isFailed : RepoOutcome → Bool
  | .Succeeded => false
  | .Failed _ => true

/-- The outcome the batch loop records for one repository, given the
per-repository pipeline. -/
def outcomeOf (pipeline : String → Except String Unit) (repo : String) :
    RepoOutcome :=
  match pipeline repo with
  | .ok _ => .Succeeded
  | .error e => .Failed e

/-- The per-repository report produced by the loop of `main` (`main.rs`
lines 55-62): each repository is processed in turn; the `match` logs
success or failure and the loop continues either way. -/
def runBatch (pipeline : String → Except String Unit) :
    List String → List (String × RepoOutcome)
  | [] => []
  | repo :: rest => (repo, outcomeOf pipeline repo) :: runBatch pipeline rest

/-- The `Result` value `main` (`main.rs` lines 34-66) returns after the
batch loop: both `match` arms only log, and `main` ends in `Ok(())`
unconditionally. -/
def mainLoopReturn (pipeline : String → Except String Unit) :
    List String → Except String Unit
  | [] => .ok ()
  | repo :: rest =>
    match pipeline repo with
    | .ok _ => mainLoopReturn pipeline rest
    | .error _ => mainLoopReturn pipeline rest

/-- The process exit status determined by the `Result` that `main`
returns (anyhow/Termination: `Ok` exits 0, `Err` exits nonzero). -/
def exitCode : Except String Unit → Nat
  | .ok _ => 0
  | .error _ => 1

lemma synthLoop_eq (acc : List Optimization) (rs : List AnalysisResult) :
    synthLoop acc rs = Except.ok (acc ++ rs.flatMap perResultPure) := by
  induction rs generalizing acc with
  | nil => simp [synthLoop]
  | cons r rest ih =>
    simp only [synthLoop, perResultPure, List.flatMap_cons]
    split_ifs with h1 h2 <;>
      simp [python_optimizer.generate_optimizations,
        rust_optimizer.generate_optimizations, ih, List.append_assoc]

lemma generate_optimizations_eq (rs : List AnalysisResult) :
    generate_optimizations rs =
      Except.ok (rs.flatMap perResultPure ++ [redisCachingOpt]) := by
  simp [generate_optimizations, synthLoop_eq, cache_optimizer.generate_redis_caching]

lemma perResultPure_all_empty (r : AnalysisResult) :
    (perResultPure r).all (fun o => o.file_changes.isEmpty) = true := by
  unfold perResultPure
  split_ifs <;> rfl

/-- Claim C1 counterexample: with two applicable analyzers (python and
docker) of which exactly the python one fails, the dispatch stage does
not return the one successful result — it aborts with the failing
analyzer's error, contradicting the claimed partial-failure isolation. -/
def pythonFailsEnv : AnalyzerEnv :=
  { rustA := rust_analyzer.analyze
    pythonA := fun _ _ => .error "python analyzer failure"
    dockerA := docker_analyzer.analyze }

/-- A tech stack selecting exactly the python and docker analyzers. -/
def pythonDockerStack : TechStack :=
  { has_rust := false
    has_python := true
    has_javascript := false
    has_docker := true
    has_kubernetes := false }

/-- Claim C1 is false as stated: for the stack selecting N = 2 analyzers
(python, docker) where exactly the python analyzer fails and the docker
analyzer succeeds, `runAnalyzers` returns an error (the failing
analyzer's own error) rather than a non-error sequence with the N-1
successful results; no `AllAnalyzersFailed` aggregation exists. -/
theorem single_analyzer_failure_aborts_dispatch :
    runAnalyzers pythonFailsEnv pythonDockerStack "acme" "svc-a" =
      Except.error "python analyzer failure" ∧
    (∃ res, pythonFailsEnv.dockerA "acme" "svc-a" = Except.ok res) ∧
    pythonFailsEnv.pythonA "acme" "svc-a" =
      Except.error "python analyzer failure" :=
  ⟨rfl, ⟨_, rfl⟩, rfl⟩

/-- Claim C1 amended: the dispatch stage sequences the selected analyzer
calls in the fixed rust, python, docker order — it fails with the first
failing selected analyzer's error whenever any selected analyzer fails,
and produces the full result sequence exactly when all selected
analyzers succeed. -/
theorem runAnalyzers_eq_sequenceCalls_selected (env : AnalyzerEnv)
    (ts : TechStack) (owner repo : String) :
    runAnalyzers env ts owner repo =
      sequenceCalls (selectedCalls env ts owner repo) := by
  obtain ⟨hr, hp, hj, hd, hk⟩ := ts
  cases hr <;> cases hp <;> cases hd <;>
    cases h1 : env.rustA owner repo <;>
    cases h2 : env.pythonA owner repo <;>
    cases h3 : env.dockerA owner repo <;>
      simp [runAnalyzers, pushIf, selectedCalls, sequenceCalls, h1, h2, h3]

/-- Claim C2: for a tech stack with python and docker set, the dispatch
stage runs exactly the python and docker analyzers; the dependency
analyzer exists in the source and would produce a "Dependency
Management" result, but it is never invoked, so its result never reaches
synthesis. -/
theorem dependency_analyzer_never_dispatched (owner repo : String) :
    ∃ l dep,
      runAnalyzers codeAnalyzers pythonDockerStack owner repo = Except.ok l ∧
      dependency_analyzer.analyze owner repo = Except.ok dep ∧
      dep.category = "Dependency Management" ∧
      l.map AnalysisResult.category =
        ["Python/AI Performance", "Docker Optimization"] ∧
      l.all (fun res => res.category != "Dependency Management") = true ∧
      dep ∉ l := by
  refine ⟨_, _, rfl, rfl, rfl, rfl, rfl, ?_⟩
  decide

/-- Claim C3: `detect_tech_stack` ignores both of its arguments and
returns the same fixed `TechStack` for every repository — in particular
`has_rust` is false even for a repository containing only a Rust
manifest, so the flags do not reflect the repository's contents. -/
theorem detect_tech_stack_constant (owner repo : String) :
    detect_tech_stack owner repo =
      Except.ok { has_rust := false
                  has_python := true
                  has_javascript := true
                  has_docker := true
                  has_kubernetes := true } ∧
    detect_tech_stack "acme" "rust-only-repo" =
      detect_tech_stack "acme" "python-only-repo" :=
  ⟨rfl, rfl⟩

/-- A pipeline that fails exactly on repository "B". -/
def failsOnB : String → Except String Unit := fun repo =>
  if repo = "B" then .error "ProviderError: cannot read B" else .ok ()

/-- Claim C4 is false as stated: in a batch where repository "B" fails,
the batch report contains a failure, yet `main` still returns `Ok(())`
and the process exit status is 0, not nonzero. -/
theorem exit_code_zero_despite_failure :
    (runBatch failsOnB ["A", "B", "C"]).any (fun pr => pr.2.isFailed) = true ∧
    exitCode (mainLoopReturn failsOnB ["A", "B", "C"]) = 0 := by
  constructor <;> rfl

/-- Claim C4 amended: once startup succeeds, `main` returns `Ok(())` for
every batch regardless of per-repository outcomes, so the process exit
status is always 0; per-repository failures are only logged (zero on
all-success holds, but nonzero on failure does not). -/
theorem mainLoopReturn_always_ok (pipeline : String → Except String Unit)
    (repos : List String) :
    mainLoopReturn pipeline repos = Except.ok () ∧
    exitCode (mainLoopReturn pipeline repos) = 0 := by
  have h1 : mainLoopReturn pipeline repos = Except.ok () := by
    induction repos with
    | nil => rfl
    | cons repo rest ih => cases h : pipeline repo <;> simp [mainLoopReturn, h, ih]
  exact ⟨h1, by rw [h1]; rfl⟩

/-- Claim C5: with `dry_run = true` the submission stage never calls the
client's PR-creation operation (no recorded PR call, for any optimization
list) and returns success; likewise the whole per-repository pipeline in
dry-run mode makes no PR call, whatever the analyzers do. -/
theorem dry_run_never_calls_createPR (env : AnalyzerEnv)
    (createPR : String → String → List Optimization → Except String Unit)
    (owner repo : String) (optimizations : List Optimization) :
    (submitStage createPR owner repo optimizations true).prCalls = [] ∧
    (submitStage createPR owner repo optimizations true).result = Except.ok () ∧
    (analyze_and_optimize env createPR owner repo true).prCalls = [] := by
  refine ⟨rfl, rfl, ?_⟩
  simp only [analyze_and_optimize, detect_tech_stack]
  cases hra : runAnalyzers env (TechStack.mk false true true true true) owner repo with
  | error e => rfl
  | ok results => simp [generate_optimizations_eq, submitStage]

/-- Claim C6: submitting an empty optimization list — dry-run or not —
returns success and never calls the client's PR-creation operation. -/
theorem empty_optimizations_noop
    (createPR : String → String → List Optimization → Except String Unit)
    (owner repo : String) (dry_run : Bool) :
    (submitStage createPR owner repo [] dry_run).prCalls = [] ∧
    (submitStage createPR owner repo [] dry_run).result = Except.ok () := by
  cases dry_run <;> exact ⟨rfl, rfl⟩

/-- Claim C7: `generate_optimizations` succeeds with the per-result
optimizations in the order the results were supplied — each result's
`tech_stack` tag selecting its rule: "python" contributes the FastAPI
multi-worker and PyTorch JIT optimizations, "rust" the LTO optimization,
and unrecognized tags such as "docker" or "general" contribute nothing
without error — followed by the cross-cutting Redis-caching optimization
appended last. -/
theorem generate_optimizations_order (rs : List AnalysisResult)
    (c : String) (fs : List Finding) :
    generate_optimizations rs =
      Except.ok (rs.flatMap perResultPure ++ [redisCachingOpt]) ∧
    perResultPure { category := c, findings := fs, tech_stack := "python" } =
      [fastapiMultiWorkerOpt, pytorchJitOpt] ∧
    perResultPure { category := c, findings := fs, tech_stack := "rust" } =
      [rustLtoOpt] ∧
    perResultPure { category := c, findings := fs, tech_stack := "docker" } = [] ∧
    perResultPure { category := c, findings := fs, tech_stack := "general" } = [] :=
  ⟨generate_optimizations_eq rs, rfl, rfl, rfl, rfl⟩

/-- Claim C8: in the batch [a, b, c] where b's pipeline fails, the batch
loop marks b Failed while still running a and c, whose recorded outcomes
are exactly the outcomes they get in the batch [a, c] without b; one
repository's failure never aborts the batch. -/
theorem batch_isolation (pipeline : String → Except String Unit)
    (a b c e : String) (hb : pipeline b = Except.error e) :
    runBatch pipeline [a, b, c] =
      [(a, outcomeOf pipeline a), (b, RepoOutcome.Failed e),
       (c, outcomeOf pipeline c)] ∧
    runBatch pipeline [a, c] =
      [(a, outcomeOf pipeline a), (c, outcomeOf pipeline c)] := by
  constructor
  · simp [runBatch, outcomeOf, hb]
  · simp [runBatch]

/-- Witness for claim C8 at a concrete batch: the pipeline failing
exactly on "B", with repositories ["A", "B", "C"]. -/
theorem batch_isolation_witness :
    runBatch failsOnB ["A", "B", "C"] =
      [("A", outcomeOf failsOnB "A"),
       ("B", RepoOutcome.Failed "ProviderError: cannot read B"),
       ("C", outcomeOf failsOnB "C")] ∧
    runBatch failsOnB ["A", "C"] =
      [("A", outcomeOf failsOnB "A"), ("C", outcomeOf failsOnB "C")] :=
  batch_isolation failsOnB "A" "B" "C" "ProviderError: cannot read B" rfl

/-- Claim C9: for every input — including the empty sequence —
`generate_optimizations` succeeds with a non-empty list whose last
element is the Redis-caching optimization (category "Redis Caching",
impact High); consequently in live mode the submission stage records a
PR-creation call for that list. -/
theorem redis_caching_always_synthesized (analysis_results : List AnalysisResult)
    (createPR : String → String → List Optimization → Except String Unit)
    (owner repo : String) :
    ∃ opts, generate_optimizations analysis_results = Except.ok opts ∧
      opts ≠ [] ∧
      opts.getLast? = some redisCachingOpt ∧
      redisCachingOpt.category = "Redis Caching" ∧
      redisCachingOpt.impact = ImpactLevel.High ∧
      (submitStage createPR owner repo opts false).prCalls =
        [(owner, repo, opts)] := by
  refine ⟨analysis_results.flatMap perResultPure ++ [redisCachingOpt],
    generate_optimizations_eq analysis_results, by simp, List.getLast?_concat _,
    rfl, rfl, ?_⟩
  have hne : ((analysis_results.flatMap perResultPure) ++
      [redisCachingOpt]).isEmpty = false := by
    cases analysis_results.flatMap perResultPure <;> rfl
  simp only [submitStage, hne, Bool.not_false, Bool.and_self, if_true]
  cases hc : createPR owner repo
      (analysis_results.flatMap perResultPure ++ [redisCachingOpt]) <;> simp [hc]

/-- Extracts the optimization list of a successful synthesis call. -/
def okOpts : Except String (List Optimization) → List Optimization
  | .ok l => l
  | .error _ => []

/-- Claim C10: every optimization produced by the python, rust, gpu and
cache optimizers has an empty `file_changes` sequence, and hence so does
every optimization in any synthesized list reaching the submission
stage. -/
theorem all_optimizations_have_no_file_changes (result : AnalysisResult)
    (analysis_results : List AnalysisResult) :
    (okOpts (python_optimizer.generate_optimizations result)).all
      (fun o => o.file_changes.isEmpty) = true ∧
    (okOpts (rust_optimizer.generate_optimizations result)).all
      (fun o => o.file_changes.isEmpty) = true ∧
    (okOpts (gpu_optimizer.generate_optimizations result)).all
      (fun o => o.file_changes.isEmpty) = true ∧
    (okOpts cache_optimizer.generate_redis_caching).all
      (fun o => o.file_changes.isEmpty) = true ∧
    (okOpts (generate_optimizations analysis_results)).all
      (fun o => o.file_changes.isEmpty) = true := by
  refine ⟨rfl, rfl, rfl, rfl, ?_⟩
  rw [generate_optimizations_eq]
  show ((analysis_results.flatMap perResultPure) ++ [redisCachingOpt]).all
    (fun o => o.file_changes.isEmpty) = true
  rw [List.all_append]
  have hflat : (analysis_results.flatMap perResultPure).all
      (fun o => o.file_changes.isEmpty) = true := by
    induction analysis_results with
    | nil => rfl
    | cons r rest ih =>
      rw [List.flatMap_cons, List.all_append, perResultPure_all_empty, ih]
      rfl
  rw [hflat]
  rfl
